import Mathlib

/-!
Verification of the secrails-sizing-agent resource-counting core.

The definitions below are a shallow embedding of the Go source:
- `internal/models` (resource.go): the data model records;
- `internal/providers/azure/collector.go`: the Batched (Resource Graph)
  per-type counter with its paginated query loop;
- `internal/providers/aws` collector: the Direct per-region counter
  `CountResourceType` and the per-region pagination loop `countInRegion`;
- the two `CountResources` orchestrators (azure/client.go and the AWS
  provider client): fan-out over the catalog, merge of completed counts
  and aggregation into a `SizingResult`.

Go maps (`map[string]int`) are modelled as association lists with unique
keys; machine `int` values as `Int`; fallible calls as `Except String`;
backend responses as explicit response sequences; the nondeterministic
goroutine completion order as an explicit order parameter.
-/

namespace Sizing

/-! Data model (internal/models/resource.go) -/

/-- Go struct `models.AccountCount`: one Azure subscription or AWS account. -/
structure AccountCount where
  id : String
  name : String
  status : String
deriving DecidableEq, Repr

/-- Go struct `models.ResourceDefinition`: one catalog entry. -/
structure ResourceDefinition where
  type : String
  displayName : String
  category : String
  useResourceGraph : Bool
deriving DecidableEq, Repr

/-- Go struct `models.ResourceCount`: the per-resource-type count with breakdowns. -/
structure ResourceCount where
  provider : String
  type : String
  displayName : String
  totalResources : Int
  byLocation : List (String × Int)
  byAccount : List (String × Int)
deriving DecidableEq, Repr

/-- Go struct `models.SizingResult` (the `Timestamp` metadata field is omitted:
no claim mentions it). -/
structure SizingResult where
  provider : String
  resourceCounts : List ResourceCount
  accountCounts : List AccountCount
  totalResources : Int
  totalAccounts : Nat
deriving DecidableEq, Repr

/-! Go string-keyed int maps as association lists. -/

/-- Assignment `m[k] = v` on a Go map: overwrite the binding if present, else append. -/
def mapSet (m : List (String × Int)) (k : String) (v : Int) : List (String × Int) :=
  match m with
  | [] => [(k, v)]
  | (k₀, v₀) :: rest => if k₀ = k then (k₀, v) :: rest else (k₀, v₀) :: mapSet rest k v

/-- Update `m[k] += v` on a Go map (missing key reads as 0). -/
def mapAddTo (m : List (String × Int)) (k : String) (v : Int) : List (String × Int) :=
  match m with
  | [] => [(k, v)]
  | (k₀, v₀) :: rest => if k₀ = k then (k₀, v₀ + v) :: rest else (k₀, v₀) :: mapAddTo rest k v

/-- The key set of a modelled Go map. -/
def mapKeys (m : List (String × Int)) : List String := m.map Prod.fst

/-- Sum of the values of a modelled Go map. -/
def sumValues (m : List (String × Int)) : Int := (m.map Prod.snd).sum

/-- A fresh `models.ResourceCount` as both collectors initialize it
(empty maps, zero total). -/
def emptyResourceCount (provider : String) (rd : ResourceDefinition) : ResourceCount :=
  { provider := provider
    type := rd.type
    displayName := rd.displayName
    totalResources := 0
    byLocation := []
    byAccount := [] }

/-- The emptiness test both pagination loops apply to a continuation
token: `tok == nil || *tok == ""`. -/
def tokenEmpty : Option String → Bool
  | none => true
  | some t => t = ""

end Sizing

namespace Sizing.Azure

/-- One row of a Resource Graph response after the collector's field
extraction: missing or non-string `location`/`subscriptionId` read as `""`,
missing or non-numeric `count` reads as `0` (collector.go, rows loop). -/
structure AzureRow where
  location : String
  subscriptionId : String
  count : Int
deriving DecidableEq, Repr

/-- One Resource Graph response page: the processed rows and the
`SkipToken` of the response. -/
structure AzurePage where
  rows : List AzureRow
  skipToken : Option String
deriving DecidableEq, Repr

/-- Constant `maxPages := 10` in `CountResourceType` (collector.go). -/
def maxPages : Nat := 10

/-- The row-processing body of the response loop: add the row count to
the total, and to `ByLocation`/`ByAccount` only when the corresponding
key is non-empty. -/
def processRow (acc : ResourceCount) (row : AzureRow) : ResourceCount :=
  let acc₁ := { acc with totalResources := acc.totalResources + row.count }
  let acc₂ :=
    if row.location ≠ "" then
      { acc₁ with byLocation := mapAddTo acc₁.byLocation row.location row.count }
    else acc₁
  if row.subscriptionId ≠ "" then
    { acc₂ with byAccount := mapAddTo acc₂.byAccount row.subscriptionId row.count }
  else acc₂

/-- Processing of all rows of one response page, in order. -/
def processRows (acc : ResourceCount) (rows : List AzureRow) : ResourceCount :=
  rows.foldl processRow acc

/-- The pagination loop of `CountResourceType` (collector.go).  `backend i`
is the outcome of the `(i+1)`-th Resource Graph query of this run; the loop
breaks when the response token is empty, or (after incrementing `pageCount`)
when `pageCount >= maxPages` — the truncation branch, which logs a warning
and returns the partial counts like a normal exit.  `fuel` is kept equal to
`maxPages - pageCount`, so the `0` branch is never reached from the entry
point. -/
def countLoop (backend : Nat → Except String AzurePage) (acc : ResourceCount)
    (pageCount : Nat) : Nat → Except String (ResourceCount × Nat)
  | 0 => Except.ok (acc, pageCount)
  | fuel + 1 =>
    match backend pageCount with
    | Except.error e => Except.error e
    | Except.ok page =>
      let acc' := processRows acc page.rows
      let pageCount' := pageCount + 1
      if tokenEmpty page.skipToken then Except.ok (acc', pageCount')
      else if maxPages ≤ pageCount' then Except.ok (acc', pageCount')
      else countLoop backend acc' pageCount' fuel

/-- Function `CountResourceType` (collector.go) instrumented with the number of
pages it consumed.  The `subscriptions` argument only shapes the query
request; the responses are the `backend` sequence. -/
def CountResourceTypeWithPages (rd : ResourceDefinition) (subscriptions : List String)
    (backend : Nat → Except String AzurePage) : Except String (ResourceCount × Nat) :=
  countLoop backend (emptyResourceCount "Azure" rd) 0 maxPages

/-- Function `CountResourceType` (collector.go): the Batched-strategy counter. -/
def CountResourceType (rd : ResourceDefinition) (subscriptions : List String)
    (backend : Nat → Except String AzurePage) : Except String ResourceCount :=
  (CountResourceTypeWithPages rd subscriptions backend).map Prod.fst

/-- Function `GetResourceTypesToCount` (azure/collector.go): the fixed Azure
catalog, in declaration order. -/
def GetResourceTypesToCount : List ResourceDefinition := [
  { type := "microsoft.containerservice/managedclusters", displayName := "AKS Clusters", category := "Containers", useResourceGraph := true },
  { type := "microsoft.apimanagement/service", displayName := "API Management", category := "Developer Tools", useResourceGraph := true },
  { type := "microsoft.web/sites", displayName := "App Services", category := "Compute", useResourceGraph := true },
  { type := "microsoft.network/applicationgateways", displayName := "Application Gateways", category := "Networking", useResourceGraph := true },
  { type := "microsoft.insights/components", displayName := "Application Insights", category := "Analytics", useResourceGraph := true },
  { type := "microsoft.automation/automationaccounts", displayName := "Automation Accounts", category := "Developer Tools", useResourceGraph := true },
  { type := "microsoft.network/azurefirewalls", displayName := "Azure Firewalls", category := "Networking", useResourceGraph := true },
  { type := "microsoft.recoveryservices/vaults/backuppolicies", displayName := "Backup Policies", category := "Storage", useResourceGraph := true },
  { type := "microsoft.network/bastionhosts", displayName := "Bastion Hosts", category := "Networking", useResourceGraph := true },
  { type := "microsoft.cognitiveservices/accounts", displayName := "Cognitive Services", category := "Machine Learning", useResourceGraph := true },
  { type := "microsoft.network/connections", displayName := "Connections", category := "Networking", useResourceGraph := true },
  { type := "microsoft.containerinstance/containergroups", displayName := "Container Instances", category := "Containers", useResourceGraph := true },
  { type := "microsoft.containerregistry/registries", displayName := "Container Registries", category := "Containers", useResourceGraph := true },
  { type := "microsoft.documentdb/databaseaccounts", displayName := "CosmosDB Accounts", category := "Databases", useResourceGraph := true },
  { type := "microsoft.datafactory/factories", displayName := "Data Factories", category := "Analytics", useResourceGraph := true },
  { type := "microsoft.datalakestore/accounts", displayName := "Data Lake Store Accounts", category := "Storage", useResourceGraph := true },
  { type := "microsoft.visualstudio/account/project", displayName := "DevOps Projects", category := "Developer Tools", useResourceGraph := true },
  { type := "microsoft.eventgrid/topics", displayName := "Event Grid Topics", category := "Developer Tools", useResourceGraph := true },
  { type := "microsoft.eventhub/namespaces", displayName := "Event Hub Namespaces", category := "Analytics", useResourceGraph := true },
  { type := "microsoft.hdinsight/clusters", displayName := "HDInsight Clusters", category := "Analytics", useResourceGraph := true },
  { type := "microsoft.keyvault/vaults", displayName := "Key Vaults", category := "Security", useResourceGraph := true },
  { type := "microsoft.network/loadbalancers", displayName := "Load Balancers", category := "Networking", useResourceGraph := true },
  { type := "microsoft.network/localnetworkgateways", displayName := "Local Network Gateways", category := "Networking", useResourceGraph := true },
  { type := "microsoft.machinelearningservices/workspaces", displayName := "Machine Learning Workspaces", category := "Machine Learning", useResourceGraph := true },
  { type := "microsoft.cache/redisenterprise", displayName := "Managed Redis Cache", category := "Databases", useResourceGraph := true },
  { type := "microsoft.dbformariadb/servers", displayName := "MariaDB Servers", category := "Databases", useResourceGraph := true },
  { type := "microsoft.dbformysql/flexibleservers", displayName := "MySQL Servers", category := "Databases", useResourceGraph := true },
  { type := "microsoft.network/networkinterfaces", displayName := "Network Interfaces", category := "Networking", useResourceGraph := true },
  { type := "microsoft.network/networkwatchers", displayName := "Network Watchers", category := "Networking", useResourceGraph := true },
  { type := "microsoft.dbforpostgresql/flexibleservers", displayName := "PostgreSQL Servers", category := "Databases", useResourceGraph := true },
  { type := "microsoft.network/privateendpoints", displayName := "Private Endpoints", category := "Networking", useResourceGraph := true },
  { type := "microsoft.network/publicipaddresses", displayName := "Public IP Addresses", category := "Networking", useResourceGraph := true },
  { type := "microsoft.recoveryservices/vaults", displayName := "Recovery Services Vaults", category := "Storage", useResourceGraph := true },
  { type := "microsoft.cache/redis", displayName := "Redis Cache", category := "Databases", useResourceGraph := true },
  { type := "microsoft.network/routetables", displayName := "Route Tables", category := "Networking", useResourceGraph := true },
  { type := "microsoft.sql/servers/databases", displayName := "SQL Databases", category := "Databases", useResourceGraph := true },
  { type := "microsoft.sql/servers", displayName := "SQL Servers", category := "Databases", useResourceGraph := true },
  { type := "microsoft.storage/storageaccounts", displayName := "Storage Accounts", category := "Storage", useResourceGraph := true },
  { type := "microsoft.compute/virtualmachines", displayName := "Virtual Machines", category := "Compute", useResourceGraph := true },
  { type := "microsoft.network/virtualnetworks", displayName := "Virtual Networks", category := "Networking", useResourceGraph := true },
  { type := "microsoft.network/networksecuritygroups", displayName := "Network Security Groups", category := "Networking", useResourceGraph := true },
  { type := "microsoft.network/vpngateways", displayName := "VPN Gateways", category := "Networking", useResourceGraph := true }
]

end Sizing.Azure

namespace Sizing.Aws

/-- One AWS `GetResources` response page: the length of
`ResourceTagMappingList` and the response `PaginationToken`. -/
structure AwsPage where
  resources : Nat
  paginationToken : Option String
deriving DecidableEq, Repr

/-- The pagination loop of `countInRegion` (aws collector).  The Go loop
has no page bound; it is rendered with explicit fuel: `none` means the
loop has not terminated within `fuel` iterations, `some r` is the value
the Go function returns.  A query error aborts the region with that
error; otherwise the page length is accumulated until the response token
is nil or empty. -/
def countInRegionLoop (backend : Nat → Except String AwsPage) :
    Nat → Nat → Nat → Option (Except String Nat)
  | 0, _, _ => none
  | fuel + 1, pageIdx, count =>
    match backend pageIdx with
    | Except.error e => some (Except.error e)
    | Except.ok page =>
      let count' := count + page.resources
      if tokenEmpty page.paginationToken then some (Except.ok count')
      else countInRegionLoop backend fuel (pageIdx + 1) count'

/-- Function `countInRegion` (aws collector) under a fuel bound: the loop entered
with an empty accumulator and no continuation token. -/
def countInRegion (backend : Nat → Except String AwsPage) (fuel : Nat) :
    Option (Except String Nat) :=
  countInRegionLoop backend fuel 0 0

/-- The outcome of one region inside the Direct counter: `none` models a
missing tagging client for the region (skipped with a warning), an error
models a failed `countInRegion` (logged and skipped), `ok n` a successful
region count. -/
def RegionOutcome : Type := Option (Except String Nat)

/-- The region loop of the AWS `CountResourceType`: skip regions with no
client and regions whose query failed; record `ByLocation[region] = count`
and add to the total only when `count > 0`. -/
def countRegions (query : String → Option (Except String Nat)) :
    List String → ResourceCount → ResourceCount
  | [], acc => acc
  | region :: rest, acc =>
    match query region with
    | none => countRegions query rest acc
    | some (Except.error _) => countRegions query rest acc
    | some (Except.ok count) =>
      if 0 < count then
        countRegions query rest
          { acc with
            byLocation := mapSet acc.byLocation region (count : Int)
            totalResources := acc.totalResources + (count : Int) }
      else countRegions query rest acc

/-- Function `CountResourceType` (aws collector): the Direct-strategy counter.
It never returns an error: every per-region failure is recovered by
`continue`. -/
def CountResourceType (rd : ResourceDefinition) (regions : List String)
    (query : String → Option (Except String Nat)) : Except String ResourceCount :=
  Except.ok (countRegions query regions (emptyResourceCount "AWS" rd))

/-- Function `GetResourceTypesToCount` (aws collector): the fixed AWS
catalog, in declaration order. -/
def GetResourceTypesToCount : List ResourceDefinition := [
  { type := "ec2:instance", displayName := "EC2 Instances", category := "Compute", useResourceGraph := false },
  { type := "lambda:function", displayName := "Lambda Functions", category := "Compute", useResourceGraph := false },
  { type := "ecs:cluster", displayName := "ECS Clusters", category := "Containers", useResourceGraph := false },
  { type := "ecs:service", displayName := "ECS Services", category := "Containers", useResourceGraph := false },
  { type := "ec2:autoscaling", displayName := "Auto Scaling Groups", category := "Compute", useResourceGraph := false },
  { type := "lightsail:instance", displayName := "Lightsail Instances", category := "Compute", useResourceGraph := false },
  { type := "eks:cluster", displayName := "EKS Clusters", category := "Containers", useResourceGraph := false },
  { type := "sqs:queue", displayName := "SQS Queues", category := "Messaging", useResourceGraph := false },
  { type := "sns:topic", displayName := "SNS Topics", category := "Messaging", useResourceGraph := false },
  { type := "kinesis:stream", displayName := "Kinesis Streams", category := "Analytics", useResourceGraph := false },
  { type := "firehose:delivery-stream", displayName := "Kinesis Firehose Delivery Streams", category := "Analytics", useResourceGraph := false },
  { type := "cloudwatch:alarm", displayName := "CloudWatch Alarms", category := "Monitoring", useResourceGraph := false },
  { type := "iam:user", displayName := "IAM Users", category := "IAM", useResourceGraph := false },
  { type := "iam:role", displayName := "IAM Roles", category := "IAM", useResourceGraph := false },
  { type := "iam:group", displayName := "IAM Groups", category := "IAM", useResourceGraph := false },
  { type := "iam:policy", displayName := "IAM Policies", category := "IAM", useResourceGraph := false },
  { type := "stepfunctions:state-machine", displayName := "Step Functions State Machines", category := "Application Integration", useResourceGraph := false },
  { type := "codecommit:repository", displayName := "CodeCommit Repositories", category := "Developer Tools", useResourceGraph := false },
  { type := "codebuild:project", displayName := "CodeBuild Projects", category := "Developer Tools", useResourceGraph := false },
  { type := "codedeploy:application", displayName := "CodeDeploy Applications", category := "Developer Tools", useResourceGraph := false },
  { type := "codepipeline:pipeline", displayName := "CodePipeline Pipelines", category := "Developer Tools", useResourceGraph := false },
  { type := "sagemaker:notebook-instance", displayName := "SageMaker Notebook Instances", category := "Machine Learning", useResourceGraph := false },
  { type := "sagemaker:endpoint", displayName := "SageMaker Endpoints", category := "Machine Learning", useResourceGraph := false },
  { type := "s3:bucket", displayName := "S3 Buckets", category := "Storage", useResourceGraph := false },
  { type := "rds:db", displayName := "RDS Databases", category := "Databases", useResourceGraph := false },
  { type := "dynamodb:table", displayName := "DynamoDB Tables", category := "Databases", useResourceGraph := false },
  { type := "ebs:volume", displayName := "EBS Volumes", category := "Storage", useResourceGraph := false },
  { type := "efs:file-system", displayName := "EFS File Systems", category := "Storage", useResourceGraph := false },
  { type := "backup:backup-vault", displayName := "Backup Vaults", category := "Storage", useResourceGraph := false },
  { type := "elasticache:cluster", displayName := "ElastiCache Clusters", category := "Databases", useResourceGraph := false },
  { type := "redshift:cluster", displayName := "Redshift Clusters", category := "Databases", useResourceGraph := false },
  { type := "neptune:db-cluster", displayName := "Neptune Clusters", category := "Databases", useResourceGraph := false },
  { type := "cloudfront:distribution", displayName := "CloudFront Distributions", category := "Networking", useResourceGraph := false },
  { type := "route53:hosted-zone", displayName := "Route 53 Hosted Zones", category := "Networking", useResourceGraph := false },
  { type := "apigateway:rest-api", displayName := "API Gateway REST APIs", category := "Networking", useResourceGraph := false },
  { type := "apigatewayv2:api", displayName := "API Gateway HTTP/WebSocket APIs", category := "Networking", useResourceGraph := false },
  { type := "directconnect:connection", displayName := "Direct Connect Connections", category := "Networking", useResourceGraph := false },
  { type := "vpn:connection", displayName := "VPN Connections", category := "Networking", useResourceGraph := false },
  { type := "dms:replication-instance", displayName := "DMS Replication Instances", category := "Migration & Transfer", useResourceGraph := false },
  { type := "workspaces:workspace", displayName := "WorkSpaces", category := "Business Applications", useResourceGraph := false },
  { type := "ec2:vpc", displayName := "VPCs", category := "Networking", useResourceGraph := false },
  { type := "elasticloadbalancing:loadbalancer", displayName := "Load Balancers", category := "Networking", useResourceGraph := false },
  { type := "ec2:nat-gateway", displayName := "NAT Gateways", category := "Networking", useResourceGraph := false },
  { type := "ec2:internet-gateway", displayName := "Internet Gateways", category := "Networking", useResourceGraph := false },
  { type := "ec2:security-group", displayName := "Security Groups", category := "Networking", useResourceGraph := false },
  { type := "kms:key", displayName := "KMS Keys", category := "Security", useResourceGraph := false },
  { type := "secretsmanager:secret", displayName := "Secrets Manager Secrets", category := "Security", useResourceGraph := false },
  { type := "acm:certificate", displayName := "ACM Certificates", category := "Security", useResourceGraph := false },
  { type := "cloudhsm:v2-cluster", displayName := "CloudHSM Clusters", category := "Security", useResourceGraph := false }
]

end Sizing.Aws

namespace Sizing

/-! Fan-out orchestrators (the two `CountResources` methods). -/

/-- The fields of the Azure provider that `CountResources`
(azure/client.go) reads: the subscriptions discovered at `Connect`. -/
structure AzureProviderState where
  subscriptions : List AccountCount
deriving DecidableEq, Repr

/-- The fields of the AWS provider that `CountResources` reads: the
accounts and regions discovered at `Connect`. -/
structure AWSProviderState where
  accounts : List AccountCount
  regions : List String
deriving DecidableEq, Repr

/-- Slice `subscriptionIDs` built before fan-out (azure/client.go). -/
def subscriptionIDs (subs : List AccountCount) : List String := subs.map (·.id)

/-- The merge of completed counting tasks.  Each scheduled type runs one
task; tasks append their `ResourceCount` to the shared slice under the
results mutex in the order they complete, and a failed task appends
nothing.  `order` is the completion order of the scheduled tasks (in a
real run, a permutation of their indices). -/
def countResourcesCore (sched : List ResourceDefinition)
    (counter : ResourceDefinition → Except String ResourceCount)
    (order : List Nat) : List ResourceCount :=
  order.filterMap (fun i => (sched[i]?).bind (fun rd => (counter rd).toOption))

/-- The final total: `result.TotalResources += rc.TotalResources` folded
over the merged slice. -/
def sumTotals (counts : List ResourceCount) : Int :=
  counts.foldl (fun t rc => t + rc.totalResources) 0

end Sizing

namespace Sizing.Azure

/-- Method `CountResources` (azure/client.go).  Scheduled tasks are the catalog
entries with `UseResourceGraph` set; each one calls the Batched counter
with the subscription IDs; `backend rd` is the Resource Graph response
sequence observed by the task of `rd`; `order` resolves the goroutine
completion order.  The provider state is read, never written, so it is
returned unchanged. -/
def CountResources (p : AzureProviderState)
    (backend : ResourceDefinition → Nat → Except String AzurePage)
    (order : List Nat) : AzureProviderState × Except String SizingResult :=
  if p.subscriptions.length = 0 then
    (p, Except.error ("no subscriptions available to scan"))
  else
    let sched := GetResourceTypesToCount.filter (fun rt => rt.useResourceGraph)
    let subIDs := subscriptionIDs p.subscriptions
    let resourceCounts := countResourcesCore sched
      (fun rd => CountResourceType rd subIDs (backend rd)) order
    (p, Except.ok {
      provider := "Azure"
      resourceCounts := resourceCounts
      accountCounts := p.subscriptions
      totalResources := sumTotals resourceCounts
      totalAccounts := p.subscriptions.length })

end Sizing.Azure

namespace Sizing.Aws

/-- The AWS `CountResources`.  Every catalog entry is scheduled (no
strategy filter); each task calls the Direct counter over the provider's
regions; `query rd region` is the outcome of `countInRegion` for that
task and region (`none` = no tagging client).  The provider state is
read, never written, so it is returned unchanged. -/
def CountResources (p : AWSProviderState)
    (query : ResourceDefinition → String → Option (Except String Nat))
    (order : List Nat) : AWSProviderState × Except String SizingResult :=
  if p.accounts.length = 0 then
    (p, Except.error ("no accounts available to scan"))
  else
    let resourceCounts := countResourcesCore GetResourceTypesToCount
      (fun rd => CountResourceType rd p.regions (query rd)) order
    (p, Except.ok {
      provider := "AWS"
      resourceCounts := resourceCounts
      accountCounts := p.accounts
      totalResources := sumTotals resourceCounts
      totalAccounts := p.accounts.length })

end Sizing.Aws

namespace Sizing

/-! The concurrency limiter.

`CountResources` creates `semaphore := make(chan struct{}, 5)`; every
task sends one value into the channel immediately before calling
`CountResourceType` and receives exactly one value back when it returns
(deferred).  The protocol is rendered as a transition system over the
per-task phases: a `pending` task may enter `querying` only while fewer
than `maxConcurrency` tasks hold a permit (a send on a full channel
blocks), and a `querying` task releases its permit by finishing. -/

/-- The phase of one counting goroutine with respect to the semaphore. -/
inductive TaskPhase where
  | pending
  | querying
  | finished
deriving DecidableEq, Repr

/-- Constant `maxConcurrency := 5` (both orchestrators). -/
def maxConcurrency : Nat := 5

/-- The number of tasks currently holding a semaphore permit. -/
def queryingCount : List TaskPhase → Nat
  | [] => 0
  | p :: rest => (if p = TaskPhase.querying then 1 else 0) + queryingCount rest

/-- One scheduler step of the semaphore protocol. -/
inductive SemStep : List TaskPhase → List TaskPhase → Prop where
  | acquire (phases : List TaskPhase) (i : Nat)
      (hp : phases[i]? = some TaskPhase.pending)
      (hlim : queryingCount phases < maxConcurrency) :
      SemStep phases (phases.set i TaskPhase.querying)
  | release (phases : List TaskPhase) (i : Nat)
      (hq : phases[i]? = some TaskPhase.querying) :
      SemStep phases (phases.set i TaskPhase.finished)

/-- All tasks start pending, before any permit is taken. -/
def initPhases (n : Nat) : List TaskPhase := List.replicate n TaskPhase.pending

/-- The reachable states of a run over `n` scheduled tasks. -/
def SemReachable (n : Nat) (phases : List TaskPhase) : Prop :=
  Relation.ReflTransGen SemStep (initPhases n) phases

end Sizing

namespace Sizing.Azure

/-- Rows of `fuel` consecutive backend pages starting at page `pc`, in
the order the pagination loop consumes them. -/
def rowsFrom (pages : Nat → AzurePage) : Nat → Nat → List AzureRow
  | _, 0 => []
  | pc, fuel + 1 => (pages pc).rows ++ rowsFrom pages (pc + 1) fuel

end Sizing.Azure

namespace Sizing.Aws

/-- The `ByLocation` entry a region contributes in the Direct counter: a
binding only for a successful query with a positive count. -/
def posEntry (query : String → Option (Except String Nat)) (region : String) :
    Option (String × Int) :=
  match query region with
  | some (Except.ok n) => if 0 < n then some (region, (n : Int)) else none
  | _ => none

/-- The contribution of a region to the Direct counter total: the count
of a successful query (zero included), nothing for a failed or skipped
region. -/
def okCount (query : String → Option (Except String Nat)) (region : String) :
    Option Int :=
  match query region with
  | some (Except.ok n) => some ((n : Int))
  | _ => none

/-- A backend that answers every `GetResources` call with one resource
and a non-empty continuation token, forever. -/
def alwaysTokenBackend : Nat → Except String AwsPage :=
  fun _ => Except.ok { resources := 1, paginationToken := some "next" }

/-- A backend whose single page carries four resources and no
continuation token. -/
def oneShotBackend : Nat → Except String AwsPage :=
  fun _ => Except.ok { resources := 4, paginationToken := none }

end Sizing.Aws

namespace Sizing

/-! Concrete fixtures used by counterexamples and witnesses. -/

/-- A provider state with one enabled subscription. -/
def demoState : AzureProviderState :=
  { subscriptions := [{ id := "s1", name := "Sub One", status := "Enabled" }] }

/-- A generic resource-type definition. -/
def rdDemo : ResourceDefinition :=
  { type := "t", displayName := "T", category := "c", useResourceGraph := true }

/-- Backend responses for which exactly the first two catalog types
succeed, each with a single one-row page, and every other type's query
fails. -/
def demoBackend : ResourceDefinition → Nat → Except String Azure.AzurePage := fun rd _ =>
  if rd.type = "microsoft.containerservice/managedclusters" then
    Except.ok { rows := [{ location := "eastus", subscriptionId := "s1", count := 3 }],
                skipToken := none }
  else if rd.type = "microsoft.apimanagement/service" then
    Except.ok { rows := [{ location := "westus", subscriptionId := "s1", count := 4 }],
                skipToken := none }
  else Except.error ("query failed")

/-- A backend for which every Resource Graph query fails. -/
def failBackend : ResourceDefinition → Nat → Except String Azure.AzurePage :=
  fun _ _ => Except.error ("boom")

/-- Completion order: tasks finish in catalog order. -/
def demoOrderA : List Nat := List.range 42

/-- Completion order: the second task finishes before the first. -/
def demoOrderB : List Nat := 1 :: 0 :: List.drop 2 (List.range 42)

/-- The count the first catalog type produces under `demoBackend`. -/
def aksCount : ResourceCount :=
  { provider := "Azure", type := "microsoft.containerservice/managedclusters",
    displayName := "AKS Clusters", totalResources := 3,
    byLocation := [("eastus", 3)], byAccount := [("s1", 3)] }

/-- The count the second catalog type produces under `demoBackend`. -/
def apimCount : ResourceCount :=
  { provider := "Azure", type := "microsoft.apimanagement/service",
    displayName := "API Management", totalResources := 4,
    byLocation := [("westus", 4)], byAccount := [("s1", 4)] }

/-- The run outcome under completion order `demoOrderA`. -/
def demoResultA : SizingResult :=
  { provider := "Azure", resourceCounts := [aksCount, apimCount],
    accountCounts := demoState.subscriptions, totalResources := 7, totalAccounts := 1 }

/-- The run outcome under completion order `demoOrderB`. -/
def demoResultB : SizingResult :=
  { provider := "Azure", resourceCounts := [apimCount, aksCount],
    accountCounts := demoState.subscriptions, totalResources := 7, totalAccounts := 1 }

/-- The run outcome when every counting task fails. -/
def emptyAzureResult : SizingResult :=
  { provider := "Azure", resourceCounts := [],
    accountCounts := demoState.subscriptions, totalResources := 0, totalAccounts := 1 }

/-- An AWS provider state with one account and one region. -/
def awsFailState : AWSProviderState :=
  { accounts := [{ id := "a1", name := "Acct", status := "" }], regions := ["us-east-1"] }

/-- A query oracle for which every region query of every type fails. -/
def failQuery : ResourceDefinition → String → Option (Except String Nat) :=
  fun _ _ => some (Except.error ("throttled"))

/-- Completion order over the whole AWS catalog. -/
def awsOrder : List Nat := List.range 49

/-- The AWS run outcome when no task is scheduled to complete work. -/
def emptyAwsResult : SizingResult :=
  { provider := "AWS", resourceCounts := [],
    accountCounts := awsFailState.accounts, totalResources := 0, totalAccounts := 1 }

/-- A query oracle where regions A and C succeed, B fails and D reports
zero resources. -/
def q6 : String → Option (Except String Nat) := fun r =>
  if r = "B" then some (Except.error ("x"))
  else if r = "A" then some (Except.ok 3)
  else if r = "C" then some (Except.ok 5)
  else some (Except.ok 0)

/-- Azure response pages that always carry rows and a non-empty
continuation token. -/
def badAzurePages : Nat → Azure.AzurePage := fun _ =>
  { rows := [{ location := "l", subscriptionId := "s1", count := 2 }], skipToken := some "tok" }

/-- The backend delivering `badAzurePages`. -/
def badAzureBackend : Nat → Except String Azure.AzurePage :=
  fun i => Except.ok (badAzurePages i)

/-- A single-page response whose second row has an empty location. -/
def mixedRowsBackend : Nat → Except String Azure.AzurePage := fun _ =>
  Except.ok { rows := [{ location := "eastus", subscriptionId := "s1", count := 1 },
                       { location := "", subscriptionId := "s1", count := 1 }],
              skipToken := none }

/-- A single-page response with one fully-labelled row. -/
def singlePageBackend : Nat → Except String Azure.AzurePage := fun _ =>
  Except.ok { rows := [{ location := "eastus", subscriptionId := "s1", count := 3 }],
              skipToken := none }

/-- The Direct count produced over regions A–D under `q6`. -/
def awsDemoCount : ResourceCount :=
  ResourceCount.mk "AWS" "t" "T" 8 [("A", 3), ("C", 5)] []

/-- The Batched count produced by `singlePageBackend`. -/
def azureSingleCount : ResourceCount :=
  ResourceCount.mk "Azure" "t" "T" 3 [("eastus", 3)] [("s1", 3)]

end Sizing

namespace Sizing

/-! Helper lemmas on the map and aggregation primitives. -/

theorem sumTotals_foldl (l : List ResourceCount) (a : Int) :
    l.foldl (fun t rc => t + rc.totalResources) a = a + (l.map (·.totalResources)).sum := by
  induction l generalizing a with
  | nil => simp
  | cons x xs ih => simp [List.foldl_cons, ih, add_assoc]

theorem sumTotals_eq (l : List ResourceCount) :
    sumTotals l = (l.map (·.totalResources)).sum := by
  simpa using sumTotals_foldl l 0

theorem sumValues_append (m₁ m₂ : List (String × Int)) :
    sumValues (m₁ ++ m₂) = sumValues m₁ + sumValues m₂ := by
  simp [sumValues]

theorem sumValues_mapAddTo (m : List (String × Int)) (k : String) (v : Int) :
    sumValues (mapAddTo m k v) = sumValues m + v := by
  induction m with
  | nil => simp [mapAddTo, sumValues]
  | cons p rest ih =>
    obtain ⟨k₀, v₀⟩ := p
    by_cases h : k₀ = k
    · simp [mapAddTo, h, sumValues]
      omega
    · simp [mapAddTo, h, sumValues] at *
      omega

theorem mapKeys_append (m₁ m₂ : List (String × Int)) :
    mapKeys (m₁ ++ m₂) = mapKeys m₁ ++ mapKeys m₂ := by
  simp [mapKeys]

theorem mapSet_not_mem (m : List (String × Int)) (k : String) (v : Int)
    (h : k ∉ mapKeys m) : mapSet m k v = m ++ [(k, v)] := by
  induction m with
  | nil => simp [mapSet]
  | cons p rest ih =>
    obtain ⟨k₀, v₀⟩ := p
    simp [mapKeys] at h
    push_neg at h
    simp [mapSet, Ne.symm h.1, ih (by simpa [mapKeys] using h.2)]

end Sizing

namespace Sizing.Azure

/-! Lemmas about row processing and the Batched pagination loop. -/

theorem processRow_totalResources (acc : ResourceCount) (row : AzureRow) :
    (processRow acc row).totalResources = acc.totalResources + row.count := by
  simp only [processRow]
  split_ifs <;> rfl

theorem processRow_byLocation (acc : ResourceCount) (row : AzureRow)
    (h : row.location ≠ "") :
    (processRow acc row).byLocation = mapAddTo acc.byLocation row.location row.count := by
  simp only [processRow]
  split_ifs <;> rfl

theorem processRow_byLocation_empty (acc : ResourceCount) (row : AzureRow)
    (h : row.location = "") :
    (processRow acc row).byLocation = acc.byLocation := by
  simp [processRow, h, apply_ite]

theorem processRow_byAccount (acc : ResourceCount) (row : AzureRow)
    (h : row.subscriptionId ≠ "") :
    (processRow acc row).byAccount = mapAddTo acc.byAccount row.subscriptionId row.count := by
  simp only [processRow]
  split_ifs <;> rfl

theorem processRows_totalResources (rows : List AzureRow) :
    ∀ acc : ResourceCount,
      (processRows acc rows).totalResources = acc.totalResources + (rows.map (·.count)).sum := by
  induction rows with
  | nil => intro acc; simp [processRows]
  | cons row rest ih =>
    intro acc
    simp only [processRows, List.foldl_cons] at *
    rw [ih (processRow acc row), processRow_totalResources]
    simp [add_assoc]

theorem processRows_byLocation_sum (rows : List AzureRow) :
    ∀ acc : ResourceCount, (∀ row ∈ rows, row.location ≠ "") →
      sumValues (processRows acc rows).byLocation
        = sumValues acc.byLocation + (rows.map (·.count)).sum := by
  induction rows with
  | nil => intro acc _; simp [processRows]
  | cons row rest ih =>
    intro acc h
    simp only [processRows, List.foldl_cons] at *
    rw [ih (processRow acc row) (fun r hr => h r (by simp [hr])),
      processRow_byLocation acc row (h row (by simp)), sumValues_mapAddTo]
    simp [add_assoc]

theorem processRows_byAccount_sum (rows : List AzureRow) :
    ∀ acc : ResourceCount, (∀ row ∈ rows, row.subscriptionId ≠ "") →
      sumValues (processRows acc rows).byAccount
        = sumValues acc.byAccount + (rows.map (·.count)).sum := by
  induction rows with
  | nil => intro acc _; simp [processRows]
  | cons row rest ih =>
    intro acc h
    simp only [processRows, List.foldl_cons] at *
    rw [ih (processRow acc row) (fun r hr => h r (by simp [hr])),
      processRow_byAccount acc row (h row (by simp)), sumValues_mapAddTo]
    simp [add_assoc]

theorem processRows_location_delta (acc : ResourceCount) (rows : List AzureRow)
    (h : ∀ row ∈ rows, row.location ≠ "") :
    sumValues (processRows acc rows).byLocation - (processRows acc rows).totalResources
      = sumValues acc.byLocation - acc.totalResources := by
  rw [processRows_byLocation_sum rows acc h, processRows_totalResources rows acc]
  ring

theorem processRows_account_delta (acc : ResourceCount) (rows : List AzureRow)
    (h : ∀ row ∈ rows, row.subscriptionId ≠ "") :
    sumValues (processRows acc rows).byAccount - (processRows acc rows).totalResources
      = sumValues acc.byAccount - acc.totalResources := by
  rw [processRows_byAccount_sum rows acc h, processRows_totalResources rows acc]
  ring

theorem processRows_append (acc : ResourceCount) (l₁ l₂ : List AzureRow) :
    processRows acc (l₁ ++ l₂) = processRows (processRows acc l₁) l₂ := by
  simp [processRows]

end Sizing.Azure

namespace Sizing.Azure

theorem countLoop_location_delta (backend : Nat → Except String AzurePage)
    (h : ∀ i page, backend i = Except.ok page → ∀ row ∈ page.rows, row.location ≠ "") :
    ∀ (fuel pageCount : Nat) (acc rc : ResourceCount) (n : Nat),
      countLoop backend acc pageCount fuel = Except.ok (rc, n) →
      sumValues rc.byLocation - rc.totalResources
        = sumValues acc.byLocation - acc.totalResources := by
  intro fuel
  induction fuel with
  | zero =>
    intro pageCount acc rc n hloop
    simp only [countLoop, Except.ok.injEq, Prod.mk.injEq] at hloop
    rw [← hloop.1]
  | succ fuel ih =>
    intro pageCount acc rc n hloop
    cases hbe : backend pageCount with
    | error e => simp [countLoop, hbe] at hloop
    | ok page =>
      have hrows := h pageCount page hbe
      simp only [countLoop, hbe] at hloop
      by_cases h1 : tokenEmpty page.skipToken
      · simp only [h1, if_true, Except.ok.injEq, Prod.mk.injEq] at hloop
        rw [← hloop.1]
        exact processRows_location_delta acc page.rows hrows
      · by_cases h2 : maxPages ≤ pageCount + 1
        · simp [h1, h2] at hloop
          rw [← hloop.1]
          exact processRows_location_delta acc page.rows hrows
        · simp only [h1, h2, if_false, Bool.not_eq_true] at hloop
          rw [ih _ _ _ _ hloop]
          exact processRows_location_delta acc page.rows hrows

theorem countLoop_account_delta (backend : Nat → Except String AzurePage)
    (h : ∀ i page, backend i = Except.ok page → ∀ row ∈ page.rows, row.subscriptionId ≠ "") :
    ∀ (fuel pageCount : Nat) (acc rc : ResourceCount) (n : Nat),
      countLoop backend acc pageCount fuel = Except.ok (rc, n) →
      sumValues rc.byAccount - rc.totalResources
        = sumValues acc.byAccount - acc.totalResources := by
  intro fuel
  induction fuel with
  | zero =>
    intro pageCount acc rc n hloop
    simp only [countLoop, Except.ok.injEq, Prod.mk.injEq] at hloop
    rw [← hloop.1]
  | succ fuel ih =>
    intro pageCount acc rc n hloop
    cases hbe : backend pageCount with
    | error e => simp [countLoop, hbe] at hloop
    | ok page =>
      have hrows := h pageCount page hbe
      simp only [countLoop, hbe] at hloop
      by_cases h1 : tokenEmpty page.skipToken
      · simp only [h1, if_true, Except.ok.injEq, Prod.mk.injEq] at hloop
        rw [← hloop.1]
        exact processRows_account_delta acc page.rows hrows
      · by_cases h2 : maxPages ≤ pageCount + 1
        · simp [h1, h2] at hloop
          rw [← hloop.1]
          exact processRows_account_delta acc page.rows hrows
        · simp only [h1, h2, if_false, Bool.not_eq_true] at hloop
          rw [ih _ _ _ _ hloop]
          exact processRows_account_delta acc page.rows hrows

theorem countLoop_nonempty_tokens (backend : Nat → Except String AzurePage)
    (pages : Nat → AzurePage)
    (hb : ∀ i, backend i = Except.ok (pages i))
    (ht : ∀ i, tokenEmpty (pages i).skipToken = false) :
    ∀ (fuel pageCount : Nat) (acc : ResourceCount),
      pageCount + fuel = maxPages → 0 < fuel →
      countLoop backend acc pageCount fuel =
        Except.ok (processRows acc (rowsFrom pages pageCount fuel), maxPages) := by
  intro fuel
  induction fuel with
  | zero =>
    intro pageCount acc _ h0
    exact absurd h0 (by omega)
  | succ fuel ih =>
    intro pageCount acc hsum _
    simp only [countLoop, hb pageCount, ht pageCount, Bool.false_eq_true, if_false]
    by_cases h2 : maxPages ≤ pageCount + 1
    · have hf : fuel = 0 := by
        have : maxPages = 10 := rfl
        omega
      subst hf
      have hpc : pageCount + 1 = maxPages := by omega
      simp [h2, rowsFrom, hpc]
    · simp only [h2, if_false]
      rw [ih (pageCount + 1) (processRows acc (pages pageCount).rows) (by omega) (by omega)]
      rw [rowsFrom, processRows_append]

end Sizing.Azure

namespace Sizing.Aws

/-! Lemmas about the Direct counter and its pagination loop. -/

theorem countInRegionLoop_none (backend : Nat → Except String AwsPage)
    (pages : Nat → AwsPage)
    (hb : ∀ i, backend i = Except.ok (pages i))
    (ht : ∀ i, tokenEmpty (pages i).paginationToken = false) :
    ∀ (fuel pageIdx count : Nat),
      countInRegionLoop backend fuel pageIdx count = none := by
  intro fuel
  induction fuel with
  | zero => intro pageIdx count; rfl
  | succ fuel ih =>
    intro pageIdx count
    simp [countInRegionLoop, hb pageIdx, ht pageIdx, ih]

theorem countInRegionLoop_terminates_token (backend : Nat → Except String AwsPage) :
    ∀ (fuel pageIdx count : Nat) (r : Except String Nat),
      countInRegionLoop backend fuel pageIdx count = some r →
      ∃ j, pageIdx ≤ j ∧ j < pageIdx + fuel ∧
        ((∃ e, backend j = Except.error e) ∨
          ∃ page, backend j = Except.ok page ∧ tokenEmpty page.paginationToken = true) := by
  intro fuel
  induction fuel with
  | zero => intro pageIdx count r h; simp [countInRegionLoop] at h
  | succ fuel ih =>
    intro pageIdx count r h
    cases hbe : backend pageIdx with
    | error e =>
      exact ⟨pageIdx, le_refl _, by omega, Or.inl ⟨e, hbe⟩⟩
    | ok page =>
      by_cases h1 : tokenEmpty page.paginationToken
      · exact ⟨pageIdx, le_refl _, by omega, Or.inr ⟨page, hbe, h1⟩⟩
      · rw [Bool.not_eq_true] at h1
        simp only [countInRegionLoop, hbe, h1] at h
        simp at h
        obtain ⟨j, hj1, hj2, hj3⟩ := ih (pageIdx + 1) (count + page.resources) r h
        exact ⟨j, by omega, by omega, hj3⟩

theorem sumValues_posEntry (query : String → Option (Except String Nat)) :
    ∀ regions : List String,
      sumValues (regions.filterMap (posEntry query)) = (regions.filterMap (okCount query)).sum := by
  intro regions
  induction regions with
  | nil => rfl
  | cons r rest ih =>
    cases hq : query r with
    | none => simp [List.filterMap_cons, posEntry, okCount, hq, ih]
    | some e =>
      cases e with
      | error err => simp [List.filterMap_cons, posEntry, okCount, hq, ih]
      | ok n =>
        by_cases hn : 0 < n
        · simp [List.filterMap_cons, posEntry, okCount, hq, hn, sumValues]
          simpa [sumValues] using ih
        · have hn0 : n = 0 := by omega
          subst hn0
          simp [List.filterMap_cons, posEntry, okCount, hq, sumValues]
          simpa [sumValues] using ih

theorem countRegions_spec (query : String → Option (Except String Nat)) :
    ∀ (regions : List String) (acc : ResourceCount), regions.Nodup →
      (∀ r ∈ regions, r ∉ mapKeys acc.byLocation) →
      countRegions query regions acc =
        { acc with
          byLocation := acc.byLocation ++ regions.filterMap (posEntry query)
          totalResources := acc.totalResources + (regions.filterMap (okCount query)).sum } := by
  intro regions
  induction regions with
  | nil => intro acc _ _; simp [countRegions]
  | cons r rest ih =>
    intro acc hnd hmem
    have hr : r ∉ mapKeys acc.byLocation := hmem r (by simp)
    have hnd' : rest.Nodup := (List.nodup_cons.mp hnd).2
    have hrr : r ∉ rest := (List.nodup_cons.mp hnd).1
    cases hq : query r with
    | none =>
      simp only [countRegions, hq]
      rw [ih acc hnd' (fun x hx => hmem x (by simp [hx]))]
      simp [posEntry, okCount, hq, List.filterMap_cons]
    | some e =>
      cases e with
      | error err =>
        simp only [countRegions, hq]
        rw [ih acc hnd' (fun x hx => hmem x (by simp [hx]))]
        simp [posEntry, okCount, hq, List.filterMap_cons]
      | ok n =>
        by_cases hn : 0 < n
        · simp only [countRegions, hq, hn, if_true]
          rw [mapSet_not_mem acc.byLocation r (n : Int) hr]
          rw [ih _ hnd' (by
            intro x hx
            simp only [mapKeys_append]
            intro hmemx
            rcases List.mem_append.mp hmemx with hxl | hxr
            · exact hmem x (by simp [hx]) hxl
            · simp [mapKeys] at hxr
              subst hxr
              exact hrr hx)]
          simp [posEntry, okCount, hq, hn, List.filterMap_cons, List.append_assoc]
          omega
        · have hn0 : n = 0 := by omega
          subst hn0
          simp only [countRegions, hq]
          norm_num
          rw [ih acc hnd' (fun x hx => hmem x (by simp [hx]))]
          simp [posEntry, okCount, hq, List.filterMap_cons]

theorem countRegions_all_failed (query : String → Option (Except String Nat)) :
    ∀ (regions : List String) (acc : ResourceCount),
      (∀ r ∈ regions, okCount query r = none) →
      countRegions query regions acc = acc := by
  intro regions
  induction regions with
  | nil => intro acc _; rfl
  | cons r rest ih =>
    intro acc h
    have hr := h r (by simp)
    cases hq : query r with
    | none => simp only [countRegions, hq]; exact ih acc (fun x hx => h x (by simp [hx]))
    | some e =>
      cases e with
      | error err =>
        simp only [countRegions, hq]
        exact ih acc (fun x hx => h x (by simp [hx]))
      | ok n => simp [okCount, hq] at hr

end Sizing.Aws

namespace Sizing

/-! Lemmas about the merge core and the semaphore model. -/

theorem except_toOption_eq_some {ε α : Type} (e : Except ε α) (a : α) :
    e.toOption = some a ↔ e = Except.ok a := by
  cases e <;> simp [Except.toOption]

theorem countResourcesCore_mem (sched : List ResourceDefinition)
    (counter : ResourceDefinition → Except String ResourceCount)
    (order : List Nat) (rc : ResourceCount)
    (h : rc ∈ countResourcesCore sched counter order) :
    ∃ rd, rd ∈ sched ∧ counter rd = Except.ok rc := by
  simp only [countResourcesCore] at h
  obtain ⟨i, _, hbind⟩ := List.mem_filterMap.mp h
  cases hs : sched[i]? with
  | none => rw [hs] at hbind; simp at hbind
  | some rd =>
    rw [hs] at hbind
    simp only [Option.some_bind] at hbind
    exact ⟨rd, List.getElem?_mem hs, (except_toOption_eq_some _ _).mp hbind⟩

theorem countResourcesCore_eq_nil (sched : List ResourceDefinition)
    (counter : ResourceDefinition → Except String ResourceCount)
    (order : List Nat)
    (h : ∀ rd ∈ sched, (counter rd).toOption = none) :
    countResourcesCore sched counter order = [] := by
  simp only [countResourcesCore]
  apply List.filterMap_eq_nil_iff.mpr
  intro i _
  cases hs : sched[i]? with
  | none => simp
  | some rd => simp [h rd (List.getElem?_mem hs)]

theorem queryingCount_initPhases (n : Nat) : queryingCount (initPhases n) = 0 := by
  induction n with
  | zero => rfl
  | succ n ih =>
    simp only [initPhases, List.replicate_succ, queryingCount] at *
    simpa using ih

theorem queryingCount_set (phases : List TaskPhase) (v : TaskPhase) :
    ∀ i, queryingCount (phases.set i v)
      ≤ queryingCount phases + (if v = TaskPhase.querying then 1 else 0) := by
  induction phases with
  | nil => intro i; simp [queryingCount]
  | cons p rest ih =>
    intro i
    cases i with
    | zero =>
      simp only [List.set, queryingCount]
      split_ifs <;> omega
    | succ i =>
      simp only [List.set, queryingCount]
      have := ih i
      split_ifs at * <;> omega

end Sizing

namespace Sizing

/-! Claim theorems. -/

/-- Claim C5: the Batched-strategy pagination loop terminates for every
backend; against a backend that returns a non-empty continuation token on
every page, the counter stops after exactly `maxPages = 10` pages and
returns the partial counts of those pages as a normal (non-error)
result. -/
theorem batched_pagination_cap (rd : ResourceDefinition) (subs : List String)
    (backend : Nat → Except String Azure.AzurePage) (pages : Nat → Azure.AzurePage)
    (hb : ∀ i, backend i = Except.ok (pages i))
    (ht : ∀ i, tokenEmpty (pages i).skipToken = false) :
    Azure.CountResourceTypeWithPages rd subs backend =
      Except.ok (Azure.processRows (emptyResourceCount "Azure" rd)
        (Azure.rowsFrom pages 0 Azure.maxPages), Azure.maxPages) := by
  unfold Azure.CountResourceTypeWithPages
  exact Azure.countLoop_nonempty_tokens backend pages hb ht Azure.maxPages 0
    (emptyResourceCount "Azure" rd) (by simp) (by norm_num [Azure.maxPages])

/-- Claim C5 witness: a concrete run against an always-token backend
consumes exactly 10 pages and returns their accumulated counts. -/
theorem batched_pagination_cap_witness :
    Azure.CountResourceTypeWithPages rdDemo ["s1"] badAzureBackend =
      Except.ok (ResourceCount.mk "Azure" "t" "T" 20 [("l", 20)] [("s1", 20)], 10) := by
  have h := batched_pagination_cap rdDemo ["s1"] badAzureBackend badAzurePages
    (fun i => rfl) (fun i => rfl)
  exact h

theorem queryingCount_step (a b : List TaskPhase) (h : SemStep a b)
    (ha : queryingCount a ≤ maxConcurrency) : queryingCount b ≤ maxConcurrency := by
  cases h with
  | acquire i hp hlim =>
    have hs := queryingCount_set a TaskPhase.querying i
    rw [if_pos rfl] at hs
    omega
  | release i hq =>
    have hs := queryingCount_set a TaskPhase.finished i
    simp at hs
    omega

/-- Claim C9: at most `maxConcurrency = 5` counting tasks are ever in
the querying state simultaneously — every state reachable under the
semaphore protocol (acquire one permit before the counter call while
fewer than five are held, release exactly one on finish) has at most
five querying tasks. -/
theorem semaphore_bound (n : Nat) (phases : List TaskPhase)
    (h : SemReachable n phases) : queryingCount phases ≤ maxConcurrency := by
  induction h with
  | refl => simp [queryingCount_initPhases]
  | tail hsteps hstep ih => exact queryingCount_step _ _ hstep ih

/-- Claim C9 witness: in a run over six scheduled tasks, the state after
one acquire step is reachable and satisfies the bound. -/
theorem semaphore_bound_witness :
    queryingCount ((initPhases 6).set 0 TaskPhase.querying) ≤ maxConcurrency := by
  have h : SemReachable 6 ((initPhases 6).set 0 TaskPhase.querying) :=
    Relation.ReflTransGen.single
      (SemStep.acquire (initPhases 6) 0 (by decide) (by decide))
  exact semaphore_bound 6 _ h

/-- Claim C10: the Direct-strategy per-region pagination loop
(`countInRegion`) has no page-count safety bound — against a backend
that always answers with a non-empty pagination token the loop does not
terminate within any number of iterations. -/
theorem countInRegion_no_page_bound
    (backend : Nat → Except String Aws.AwsPage) (pages : Nat → Aws.AwsPage)
    (hb : ∀ i, backend i = Except.ok (pages i))
    (ht : ∀ i, tokenEmpty (pages i).paginationToken = false) :
    ∀ fuel, Aws.countInRegion backend fuel = none := by
  intro fuel
  exact Aws.countInRegionLoop_none backend pages hb ht fuel 0 0

/-- Claim C10 witness: a concrete always-token backend exhausts any
fuel. -/
theorem countInRegion_no_page_bound_witness :
    Aws.countInRegion Aws.alwaysTokenBackend 7 = none :=
  countInRegion_no_page_bound Aws.alwaysTokenBackend
    (fun _ => { resources := 1, paginationToken := some "next" })
    (fun _ => rfl) (fun _ => rfl) 7

end Sizing

namespace Sizing

theorem azure_countResources_ok (p : AzureProviderState)
    (backend : ResourceDefinition → Nat → Except String Azure.AzurePage)
    (order : List Nat) (hc : ¬p.subscriptions.length = 0) :
    (Azure.CountResources p backend order).2 = Except.ok
      { provider := "Azure"
        resourceCounts := countResourcesCore
          (Azure.GetResourceTypesToCount.filter (fun rt => rt.useResourceGraph))
          (fun rd => Azure.CountResourceType rd (subscriptionIDs p.subscriptions) (backend rd))
          order
        accountCounts := p.subscriptions
        totalResources := sumTotals (countResourcesCore
          (Azure.GetResourceTypesToCount.filter (fun rt => rt.useResourceGraph))
          (fun rd => Azure.CountResourceType rd (subscriptionIDs p.subscriptions) (backend rd))
          order)
        totalAccounts := p.subscriptions.length } := by
  simp [Azure.CountResources, hc]

theorem aws_countResources_ok (q : AWSProviderState)
    (query : ResourceDefinition → String → Option (Except String Nat))
    (order : List Nat) (hc : ¬q.accounts.length = 0) :
    (Aws.CountResources q query order).2 = Except.ok
      { provider := "AWS"
        resourceCounts := countResourcesCore Aws.GetResourceTypesToCount
          (fun rd => Aws.CountResourceType rd q.regions (query rd)) order
        accountCounts := q.accounts
        totalResources := sumTotals (countResourcesCore Aws.GetResourceTypesToCount
          (fun rd => Aws.CountResourceType rd q.regions (query rd)) order)
        totalAccounts := q.accounts.length } := by
  simp [Aws.CountResources, hc]

/-- Claim C1: whenever either orchestrator returns a `SizingResult`, its
`TotalResources` field equals the sum of `TotalResources` over the
entries of its `ResourceCounts` list, including runs in which some
resource types failed and were dropped. -/
theorem run_total_is_sum (p : AzureProviderState)
    (backend : ResourceDefinition → Nat → Except String Azure.AzurePage)
    (order : List Nat) (q : AWSProviderState)
    (query : ResourceDefinition → String → Option (Except String Nat))
    (order₂ : List Nat) (r₁ r₂ : SizingResult)
    (h₁ : (Azure.CountResources p backend order).2 = Except.ok r₁)
    (h₂ : (Aws.CountResources q query order₂).2 = Except.ok r₂) :
    r₁.totalResources = (r₁.resourceCounts.map (·.totalResources)).sum ∧
    r₂.totalResources = (r₂.resourceCounts.map (·.totalResources)).sum := by
  constructor
  · by_cases hc : p.subscriptions.length = 0
    · simp [Azure.CountResources, hc] at h₁
    · rw [azure_countResources_ok p backend order hc, Except.ok.injEq] at h₁
      subst h₁
      exact sumTotals_eq _
  · by_cases hc : q.accounts.length = 0
    · simp [Aws.CountResources, hc] at h₂
    · rw [aws_countResources_ok q query order₂ hc, Except.ok.injEq] at h₂
      subst h₂
      exact sumTotals_eq _

/-- Claim C1 witness: concrete runs of both orchestrators satisfy the
sum identity. -/
theorem run_total_is_sum_witness :
    emptyAzureResult.totalResources
      = (emptyAzureResult.resourceCounts.map (·.totalResources)).sum ∧
    emptyAwsResult.totalResources
      = (emptyAwsResult.resourceCounts.map (·.totalResources)).sum :=
  run_total_is_sum demoState failBackend [] awsFailState failQuery []
    emptyAzureResult emptyAwsResult rfl rfl

/-- Claim C8: an orchestrator invoked with an empty
subscription/account list fails with the fatal no-accounts error,
produces no partial `SizingResult`, and leaves the provider state
discovered at `Connect` unchanged. -/
theorem empty_accounts_abort (p : AzureProviderState)
    (backend : ResourceDefinition → Nat → Except String Azure.AzurePage)
    (order : List Nat) (q : AWSProviderState)
    (query : ResourceDefinition → String → Option (Except String Nat))
    (order₂ : List Nat)
    (h₁ : p.subscriptions = []) (h₂ : q.accounts = []) :
    Azure.CountResources p backend order
      = (p, Except.error ("no subscriptions available to scan")) ∧
    Aws.CountResources q query order₂
      = (q, Except.error ("no accounts available to scan")) := by
  constructor
  · simp [Azure.CountResources, h₁]
  · simp [Aws.CountResources, h₂]

/-- Claim C8 witness: both orchestrators abort on concrete empty
states. -/
theorem empty_accounts_abort_witness :
    Azure.CountResources { subscriptions := [] } failBackend []
      = ({ subscriptions := [] }, Except.error ("no subscriptions available to scan")) ∧
    Aws.CountResources { accounts := [], regions := ["us-east-1"] } failQuery []
      = ({ accounts := [], regions := ["us-east-1"] },
          Except.error ("no accounts available to scan")) :=
  empty_accounts_abort { subscriptions := [] } failBackend []
    { accounts := [], regions := ["us-east-1"] } failQuery [] rfl rfl

end Sizing

namespace Sizing

/-- Claim C2 counterexample: two runs over identical backend responses
whose tasks complete in different orders produce differently ordered
`ResourceCounts` lists — the code appends results in completion order
and never restores catalog order, so the ordering is not
catalog-deterministic. -/
theorem catalog_order_counterexample :
    (Azure.CountResources demoState demoBackend demoOrderA).2 = Except.ok demoResultA ∧
    (Azure.CountResources demoState demoBackend demoOrderB).2 = Except.ok demoResultB ∧
    demoResultA.resourceCounts ≠ demoResultB.resourceCounts ∧
    demoResultA.totalResources = demoResultB.totalResources := by
  refine ⟨rfl, rfl, by decide, rfl⟩

/-- Claim C2 amended: the `ResourceCounts` list is emitted in task
completion order, so two runs over identical backend responses whose
completion orders are permutations of one another produce
`ResourceCounts` lists that are permutations of each other with equal
`TotalResources` — but not necessarily in the same (or catalog)
order. -/
theorem completion_order_perm (p : AzureProviderState)
    (backend : ResourceDefinition → Nat → Except String Azure.AzurePage)
    (order₁ order₂ : List Nat) (hperm : order₁.Perm order₂)
    (r₁ r₂ : SizingResult)
    (h₁ : (Azure.CountResources p backend order₁).2 = Except.ok r₁)
    (h₂ : (Azure.CountResources p backend order₂).2 = Except.ok r₂) :
    r₁.resourceCounts.Perm r₂.resourceCounts ∧
    r₁.totalResources = r₂.totalResources := by
  by_cases hc : p.subscriptions.length = 0
  · simp [Azure.CountResources, hc] at h₁
  · rw [azure_countResources_ok p backend order₁ hc, Except.ok.injEq] at h₁
    rw [azure_countResources_ok p backend order₂ hc, Except.ok.injEq] at h₂
    subst h₁
    subst h₂
    have hp : (countResourcesCore
        (Azure.GetResourceTypesToCount.filter (fun rt => rt.useResourceGraph))
        (fun rd => Azure.CountResourceType rd (subscriptionIDs p.subscriptions) (backend rd))
        order₁).Perm (countResourcesCore
        (Azure.GetResourceTypesToCount.filter (fun rt => rt.useResourceGraph))
        (fun rd => Azure.CountResourceType rd (subscriptionIDs p.subscriptions) (backend rd))
        order₂) := hperm.filterMap _
    constructor
    · exact hp
    · simp only [sumTotals_eq]
      exact (hp.map _).sum_eq

/-- Claim C2 amended witness: the two demo runs have permuted
`ResourceCounts` and equal totals. -/
theorem completion_order_perm_witness :
    demoResultA.resourceCounts.Perm demoResultB.resourceCounts ∧
    demoResultA.totalResources = demoResultB.totalResources :=
  completion_order_perm demoState demoBackend demoOrderA demoOrderB (by decide)
    demoResultA demoResultB rfl rfl

/-- Claim C3 counterexample: a run in which every scheduled counting
task fails does not return a fatal error — it returns a `SizingResult`
with an empty `ResourceCounts` list and zero totals, so no
`NoDataCollected` (or any other) error exists in the code. -/
theorem no_data_collected_counterexample :
    (Azure.CountResources demoState failBackend demoOrderA).2
      = Except.ok emptyAzureResult ∧
    emptyAzureResult.resourceCounts = [] := ⟨rfl, rfl⟩

/-- Claim C3 amended: failed tasks are logged and excluded and never
fail the run — if every scheduled task fails, the orchestrator still
returns a `SizingResult` (not an error) whose `ResourceCounts` is empty
and whose `TotalResources` is zero. -/
theorem all_tasks_failed_empty_result (p : AzureProviderState)
    (backend : ResourceDefinition → Nat → Except String Azure.AzurePage)
    (order : List Nat) (hsub : p.subscriptions ≠ [])
    (hfail : ∀ rd, ∃ e, Azure.CountResourceType rd (subscriptionIDs p.subscriptions)
      (backend rd) = Except.error e) :
    (Azure.CountResources p backend order).2 = Except.ok
      { provider := "Azure", resourceCounts := [],
        accountCounts := p.subscriptions, totalResources := 0,
        totalAccounts := p.subscriptions.length } := by
  have hc : ¬p.subscriptions.length = 0 := by
    simpa [List.length_eq_zero] using hsub
  rw [azure_countResources_ok p backend order hc]
  have hnil : countResourcesCore
      (Azure.GetResourceTypesToCount.filter (fun rt => rt.useResourceGraph))
      (fun rd => Azure.CountResourceType rd (subscriptionIDs p.subscriptions) (backend rd))
      order = [] := by
    apply countResourcesCore_eq_nil
    intro rd _
    obtain ⟨e, he⟩ := hfail rd
    simp [he, Except.toOption]
  rw [hnil]
  simp [sumTotals]

/-- Claim C3 amended witness: the concrete all-failing run returns the
empty ok result. -/
theorem all_tasks_failed_empty_result_witness :
    (Azure.CountResources demoState failBackend demoOrderA).2 = Except.ok
      { provider := "Azure", resourceCounts := [],
        accountCounts := demoState.subscriptions, totalResources := 0,
        totalAccounts := demoState.subscriptions.length } :=
  all_tasks_failed_empty_result demoState failBackend demoOrderA
    (by simp [demoState]) (fun rd => ⟨"boom", rfl⟩)

end Sizing

namespace Sizing

/-- Claim C4 counterexample: the Batched counter, fed a response with a
row whose location is empty, populates `ByLocation` with a sum (1) that
contradicts `TotalResources` (2) — the empty-location row counts toward
the total but not toward the breakdown. -/
theorem breakdown_sum_counterexample :
    Azure.CountResourceType rdDemo ["s1"] mixedRowsBackend
      = Except.ok (ResourceCount.mk "Azure" "t" "T" 2 [("eastus", 1)] [("s1", 2)]) ∧
    sumValues [("eastus", (1 : Int))] ≠ (2 : Int) := ⟨rfl, by decide⟩

/-- Claim C4 amended: the Direct counter always satisfies
`sum(byLocation) = totalCount` (with `byAccount` left empty, given
deduplicated scopes); the Batched counter satisfies
`sum(byLocation) = totalCount` only when every response row carries a
non-empty location, and `sum(byAccount) = totalCount` only when every
row carries a non-empty subscription id — rows missing a key contribute
to the total but not to that breakdown. -/
theorem breakdown_sums (rd : ResourceDefinition) (regions : List String)
    (query : String → Option (Except String Nat)) (hnd : regions.Nodup)
    (rc : ResourceCount) (hrc : Aws.CountResourceType rd regions query = Except.ok rc)
    (rd' : ResourceDefinition) (subs : List String)
    (backend : Nat → Except String Azure.AzurePage)
    (hloc : ∀ i page, backend i = Except.ok page → ∀ row ∈ page.rows, row.location ≠ "")
    (hacct : ∀ i page, backend i = Except.ok page →
      ∀ row ∈ page.rows, row.subscriptionId ≠ "")
    (rc' : ResourceCount) (hrc' : Azure.CountResourceType rd' subs backend = Except.ok rc') :
    sumValues rc.byLocation = rc.totalResources ∧ rc.byAccount = [] ∧
    sumValues rc'.byLocation = rc'.totalResources ∧
    sumValues rc'.byAccount = rc'.totalResources := by
  have hAz : sumValues rc'.byLocation = rc'.totalResources ∧
      sumValues rc'.byAccount = rc'.totalResources := by
    unfold Azure.CountResourceType Azure.CountResourceTypeWithPages at hrc'
    cases hw : Azure.countLoop backend (emptyResourceCount "Azure" rd') 0 Azure.maxPages with
    | error e => rw [hw] at hrc'; simp [Except.map] at hrc'
    | ok pr =>
      rw [hw] at hrc'
      obtain ⟨rc₀, n⟩ := pr
      simp only [Except.map, Except.ok.injEq] at hrc'
      subst hrc'
      have h₁ := Azure.countLoop_location_delta backend hloc Azure.maxPages 0 _ rc₀ n hw
      have h₂ := Azure.countLoop_account_delta backend hacct Azure.maxPages 0 _ rc₀ n hw
      simp [emptyResourceCount, sumValues] at h₁ h₂
      simp only [sumValues]
      omega
  unfold Aws.CountResourceType at hrc
  rw [Except.ok.injEq] at hrc
  rw [Aws.countRegions_spec query regions _ hnd
    (by intro r hr; simp [emptyResourceCount, mapKeys])] at hrc
  subst hrc
  refine ⟨?_, ?_, hAz.1, hAz.2⟩
  · simp [emptyResourceCount, Aws.sumValues_posEntry]
  · simp [emptyResourceCount]

/-- Claim C4 amended witness: concrete Direct and Batched counts
satisfying the amended sum laws. -/
theorem breakdown_sums_witness :
    sumValues awsDemoCount.byLocation = awsDemoCount.totalResources ∧
    awsDemoCount.byAccount = [] ∧
    sumValues azureSingleCount.byLocation = azureSingleCount.totalResources ∧
    sumValues azureSingleCount.byAccount = azureSingleCount.totalResources :=
  breakdown_sums rdDemo ["A", "B", "C", "D"] q6 (by decide) awsDemoCount rfl
    rdDemo ["s1"] singlePageBackend
    (by intro i page hp; cases hp; intro row hrow; simp at hrow; subst hrow; decide)
    (by intro i page hp; cases hp; intro row hrow; simp at hrow; subst hrow; decide)
    azureSingleCount rfl

/-- Claim C6: for a Direct-strategy type, `ByLocation` holds exactly the
succeeding scopes with a positive count (failed and zero-count scopes
are absent, not zero entries), and `TotalResources` is the sum of the
succeeding scopes' counts. -/
theorem direct_scope_isolation (rd : ResourceDefinition) (regions : List String)
    (query : String → Option (Except String Nat)) (hnd : regions.Nodup) :
    Aws.CountResourceType rd regions query = Except.ok
      (ResourceCount.mk "AWS" rd.type rd.displayName
        ((regions.filterMap (Aws.okCount query)).sum)
        (regions.filterMap (Aws.posEntry query)) []) := by
  unfold Aws.CountResourceType
  rw [Aws.countRegions_spec query regions (emptyResourceCount "AWS" rd) hnd
    (by intro r hr; simp [emptyResourceCount, mapKeys])]
  simp [emptyResourceCount]

/-- Claim C6 witness: with scopes A and C succeeding (3 and 5), B
failing and D reporting zero, the count holds A and C only and totals
8. -/
theorem direct_scope_isolation_witness :
    Aws.CountResourceType rdDemo ["A", "B", "C", "D"] q6 = Except.ok awsDemoCount :=
  direct_scope_isolation rdDemo ["A", "B", "C", "D"] q6 (by decide)

/-- Claim C7 counterexample: an AWS run in which every scope query of
every type fails still reports all 49 types, each with a zero total —
a Direct-strategy type whose counting failed is not omitted, so a
zero-count entry does not imply zero resources were found. -/
theorem zero_count_conflation_counterexample :
    ((Aws.CountResources awsFailState failQuery awsOrder).2).map
        (fun r => (r.resourceCounts.head?, r.resourceCounts.length, r.totalResources))
      = Except.ok (some (ResourceCount.mk "AWS" "ec2:instance" "EC2 Instances" 0 [] []),
          49, 0) := rfl

/-- Claim C7 amended: a Batched-strategy type whose single query fails
is omitted from the report (every Azure report entry originates from a
successful counter call), but a Direct-strategy type whose every scope
fails is not: its counter still returns a zero-total `ResourceCount`,
which the orchestrator includes. -/
theorem failed_type_reporting (p : AzureProviderState)
    (backend : ResourceDefinition → Nat → Except String Azure.AzurePage)
    (order : List Nat) (r : SizingResult)
    (h : (Azure.CountResources p backend order).2 = Except.ok r)
    (rc : ResourceCount) (hmem : rc ∈ r.resourceCounts)
    (rd : ResourceDefinition) (regions : List String)
    (query : String → Option (Except String Nat))
    (hfail : ∀ reg ∈ regions, Aws.okCount query reg = none) :
    (∃ rd', Azure.CountResourceType rd' (subscriptionIDs p.subscriptions) (backend rd')
        = Except.ok rc) ∧
    Aws.CountResourceType rd regions query = Except.ok (emptyResourceCount "AWS" rd) := by
  constructor
  · by_cases hc : p.subscriptions.length = 0
    · simp [Azure.CountResources, hc] at h
    · rw [azure_countResources_ok p backend order hc, Except.ok.injEq] at h
      subst h
      obtain ⟨rd', _, hok⟩ := countResourcesCore_mem _ _ order rc hmem
      exact ⟨rd', hok⟩
  · unfold Aws.CountResourceType
    rw [Aws.countRegions_all_failed query regions _ hfail]

/-- Claim C7 amended witness: the demo Azure run's first entry comes
from a successful counter call, and a concrete all-failing Direct type
returns the zero-total count. -/
theorem failed_type_reporting_witness :
    (∃ rd', Azure.CountResourceType rd' (subscriptionIDs demoState.subscriptions)
        (demoBackend rd') = Except.ok aksCount) ∧
    Aws.CountResourceType rdDemo ["us-east-1"] (failQuery rdDemo)
      = Except.ok (emptyResourceCount "AWS" rdDemo) :=
  failed_type_reporting demoState demoBackend demoOrderA demoResultA rfl
    aksCount (by decide) rdDemo ["us-east-1"] (failQuery rdDemo) (by decide)

end Sizing
